import Mathlib

/-!
Verification of the multi-source vehicle-inventory aggregation pipeline and the
saved-search alert engine.

The definitions below are a shallow embedding of the TypeScript source:

* `deduplicateVehicles`, `filterVehicles`, `normalizeColor` — from
  `src/server/api/routers/vehicles.ts` and `src/lib/utils.ts`.
  The JavaScript `Map<string, Vehicle>` is modelled as an insertion-ordered
  association list (`Map.set` on an existing key replaces the value in place,
  on a new key appends; `Array.from(map.values())` yields values in key
  insertion order).
* `buildVehicleFilter` — from `src/server/api/routers/row52.ts`.
* `extractCookies` — from `vehicles.ts`; the regex split
  `split(/,(?=\s*[^;=]+=[^;]+)/)` is implemented as a character scanner with
  the lookahead test `nameValueAhead`.
* `fetchWithRetry` — the `backOff` loop of the `exponential-backoff` library
  with the source's option record (`numOfAttempts = SEARCH_CONFIG.MAX_RETRIES`,
  a `retry` callback that refuses `AbortError` and logs otherwise).  The
  network environment is a function from attempt index to that attempt's
  outcome.
* `searchPyp` — the pyp branch of `vehiclesRouter.search` (per-location fan
  out, error accounting, `locationsCovered`).
* `processSearch`, `sendNotifications`, `handleSearch` — the alert engine of
  the cron route (diff against the stored snapshot, notification dispatch,
  snapshot persistence and lock release).
-/

set_option autoImplicit false

namespace Pyp

/-! ## Data model -/

/-- The two upstream networks (`DataSource` in `src/lib/types.ts`). -/
inductive Source
  | pyp
  | row52
  deriving DecidableEq, Repr

/-- One inventory item, flattened to the fields the aggregation pipeline
reads.  `availableDate` and the location's `distance` are modelled as
integers (epoch milliseconds / miles); only their order matters to the
code under study. -/
structure Vehicle where
  id : String
  vin : String
  make : String
  model : String
  color : String
  year : Int
  availableDate : Int
  source : Source
  locName : String
  locStateAbbr : String
  locDistance : Int
  deriving DecidableEq, Repr

/-! ## JavaScript string primitives

`String.toLower` and `String.trim` of the Lean core library are defined by
well-founded recursion over byte positions and do not reduce inside the
kernel, so the JavaScript `toLowerCase`/`trim`/`startsWith` used by the
source are embedded as structurally recursive functions over the string's
character list (the code only ever feeds them ASCII, where the two agree). -/

/-- JavaScript `String.prototype.trim` on a character list. -/
def jsTrim (l : List Char) : List Char :=
  ((l.dropWhile Char.isWhitespace).reverse.dropWhile Char.isWhitespace).reverse

/-- JavaScript `String.prototype.trim`. -/
def trimStr (s : String) : String :=
  String.mk (jsTrim s.data)

/-- JavaScript `String.prototype.toLowerCase`. -/
def toLowerStr (s : String) : String :=
  String.mk (s.data.map Char.toLower)

/-- JavaScript `String.prototype.startsWith`. -/
def startsWithStr (s pre : String) : Bool :=
  pre.data.isPrefixOf s.data

/-! ## Deduplication (`deduplicateVehicles`, vehicles.ts lines 528-537) -/

/-- `vinMap.get(vin)`: first (and only) entry with the given key. -/
def lookupVin : List (String × Vehicle) → String → Option Vehicle
  | [], _ => none
  | (k, v) :: rest, vin => if k = vin then some v else lookupVin rest vin

/-- `vinMap.set(vin, vehicle)`: replace in place when the key exists,
append otherwise (JavaScript `Map` keeps key insertion order). -/
def setVin : List (String × Vehicle) → String → Vehicle → List (String × Vehicle)
  | [], vin, v => [(vin, v)]
  | (k, w) :: rest, vin, v =>
      if k = vin then (k, v) :: rest else (k, w) :: setVin rest vin v

/-- One iteration of the `for (const vehicle of vehicles)` loop. -/
def dedupStep (m : List (String × Vehicle)) (v : Vehicle) : List (String × Vehicle) :=
  match lookupVin m v.vin with
  | none => setVin m v.vin v
  | some existing =>
      if v.source = Source.pyp ∧ existing.source = Source.row52 then
        setVin m v.vin v
      else
        m

/-- `deduplicateVehicles` from vehicles.ts: fold the vehicles into the VIN
map, then `Array.from(vinMap.values())`. -/
def deduplicateVehicles (vehicles : List Vehicle) : List Vehicle :=
  (vehicles.foldl dedupStep []).map Prod.snd

/-! ## Color normalization (`src/lib/utils.ts` lines 47-78) -/

/-- The `COLOR_ALIASES` table. -/
def COLOR_ALIASES : List (String × String) :=
  [("blk", "black"), ("blu", "blue"), ("brn", "brown"), ("brz", "bronze"),
   ("burg", "burgundy"), ("char", "charcoal"), ("gld", "gold"),
   ("grn", "green"), ("gry", "gray"), ("grey", "gray"), ("mrn", "maroon"),
   ("org", "orange"), ("pur", "purple"), ("sil", "silver"), ("tan", "tan"),
   ("wht", "white"), ("yel", "yellow"), ("grey/silver", "silver")]

/-- `COLOR_ALIASES[lower]` — record lookup. -/
def colorAlias (key : String) : Option String :=
  (COLOR_ALIASES.find? (fun p => p.1 == key)).map Prod.snd

/-- `isValidColor` from utils.ts (empty string is falsy in JavaScript). -/
def isValidColor (color : String) : Bool :=
  if color == "" || color == "UNKNOWN" || color == "Other" then false
  else if startsWithStr color "FIELD - " || startsWithStr color "[" then false
  else true

/-- `normalizeColor` from utils.ts: `null` becomes `none`. -/
def normalizeColor (color : String) : Option String :=
  if !isValidColor color then none
  else
    let lower := toLowerStr color
    some ((colorAlias lower).getD lower)

/-! ## Filtering (`filterVehicles`, vehicles.ts lines 474-526) -/

/-- The search filter bag (`searchFiltersSchema` plus `userLocation`).
`none` models an absent optional field. -/
structure SearchFilters where
  query : String := ""
  makes : Option (List String) := none
  models : Option (List String) := none
  colors : Option (List String) := none
  states : Option (List String) := none
  sources : Option (List Source) := none
  yearRange : Option (Int × Int) := none
  dateRange : Option (Int × Int) := none
  maxDistance : Option Int := none
  userLocation : Option (Int × Int) := none
  deriving Repr

/-- The body of the `vehicles.filter` callback: each early `return false`
of the source becomes one conjunct (a vehicle passes iff no early return
fires).  `filters.xs?.length && !xs.includes(y)` rejects only when the
list is present and non-empty, matching the `match`/`isEmpty` shape here;
`filters.maxDistance &&` is JavaScript truthiness, so `maxDistance = 0`
disables the distance check. -/
def keepVehicle (filters : SearchFilters) (v : Vehicle) : Bool :=
  (match filters.sources with
   | none => true
   | some ss => ss.isEmpty || ss.contains v.source) &&
  (match filters.makes with
   | none => true
   | some ms => ms.isEmpty || (ms.map toLowerStr).contains (toLowerStr v.make)) &&
  (match filters.models with
   | none => true
   | some ms => ms.isEmpty || (ms.map toLowerStr).contains (toLowerStr v.model)) &&
  (match filters.colors with
   | none => true
   | some cs =>
       cs.isEmpty ||
         (match normalizeColor v.color with
          | none => false
          | some vehicleColor => (cs.map toLowerStr).contains vehicleColor)) &&
  (match filters.states with
   | none => true
   | some sts => sts.isEmpty || sts.contains v.locStateAbbr) &&
  (match filters.yearRange with
   | none => true
   | some (minYear, maxYear) =>
       !(decide (v.year < minYear) || decide (maxYear < v.year))) &&
  (match filters.dateRange with
   | none => true
   | some (startDate, endDate) =>
       !(decide (v.availableDate < startDate) || decide (endDate < v.availableDate))) &&
  (match filters.maxDistance, filters.userLocation with
   | some maxDistance, some _ =>
       !(decide (maxDistance ≠ 0) && decide (maxDistance < v.locDistance))
   | _, _ => true)

/-- `filterVehicles` from vehicles.ts. -/
def filterVehicles (vehicles : List Vehicle) (filters : SearchFilters) : List Vehicle :=
  vehicles.filter (keepVehicle filters)

/-! ## OData filter construction (`buildVehicleFilter`, row52.ts lines 152-163) -/

/-- `buildVehicleFilter` from row52.ts: starts from `["isActive eq true"]`,
and when the trimmed query is truthy (non-empty) pushes the substring-match
clause built by template-literal interpolation of the trimmed, lowercased
query; finally `filters.join(" and ")`. -/
def buildVehicleFilter (query : String) : String :=
  let filters := ["isActive eq true"]
  let filters :=
    if trimStr query ≠ "" then
      let searchTerm := toLowerStr (trimStr query)
      filters ++
        ["(contains(tolower(model/name),'" ++ searchTerm ++
         "') or contains(tolower(model/make/name),'" ++ searchTerm ++ "'))"]
    else filters
  String.intercalate " and " filters

/-! ## Cookie-header reconstruction (`extractCookies`, vehicles.ts lines 99-118) -/

/-- The lookahead `(?=\s*[^;=]+=[^;]+)` of the split regex, as a prefix
test on the characters after a comma.  Because every whitespace character
is itself in `[^;=]`, the `\s*` prefix is absorbed by `[^;=]+`: the
remainder matches iff its first `=`-or-`;` occurrence is an `=` at index
at least 1 that is followed by a character other than `;`. -/
def nameValueAheadGo : List Char → Bool
  | [] => false
  | c :: rest =>
      if c = ';' then false
      else if c = '=' then
        match rest with
        | [] => false
        | d :: _ => decide (d ≠ ';')
      else nameValueAheadGo rest

/-- First character after the comma must be in `[^;=]`; then scan. -/
def nameValueAhead : List Char → Bool
  | [] => false
  | c :: rest =>
      if c = ';' ∨ c = '=' then false else nameValueAheadGo rest

/-- `setCookieHeader.split(/,(?=\s*[^;=]+=[^;]+)/)`: cut at every comma whose
suffix passes the lookahead; the comma itself is the separator and is
dropped. -/
def splitSetCookieAux : List Char → List Char → List (List Char)
  | [], acc => [acc.reverse]
  | c :: rest, acc =>
      if c = ',' ∧ nameValueAhead rest then
        acc.reverse :: splitSetCookieAux rest []
      else
        splitSetCookieAux rest (c :: acc)

def splitSetCookie (l : List Char) : List (List Char) :=
  splitSetCookieAux l []

/-- `part.trim().split(";")[0]`: the characters before the first `;`. -/
def takeUntilSemi (l : List Char) : List Char :=
  l.takeWhile (fun c => c ≠ ';')

/-- `extractCookies` from vehicles.ts.  The input is the value of the
response's `set-cookie` header (`none` when the header is absent).  Each
part is trimmed, cut at its first `;`, kept when non-empty (truthy), and
the kept pairs are joined with `"; "`. -/
def extractCookies (setCookieHeader : Option String) : String :=
  match setCookieHeader with
  | none => ""
  | some s =>
      let parts := splitSetCookie s.toList
      let cookies := parts.filterMap (fun part =>
        let cookiePart := takeUntilSemi (jsTrim part)
        if cookiePart.isEmpty then none else some (String.mk cookiePart))
      String.intercalate "; " cookies

/-! ## Retry executor (`fetchWithRetry`, vehicles.ts lines 46-94) -/

/-- `SEARCH_CONFIG.MAX_RETRIES` from `src/lib/constants.ts`. -/
def MAX_RETRIES : Nat := 3

/-- What one `fetch` attempt does in the environment: resolve with an HTTP
status, reject with a network-level error, or reject with an `AbortError`
(the attached signal fired). -/
inductive AttemptOutcome
  | http (status : Nat)
  | networkError
  | abortError
  deriving DecidableEq, Repr

/-- The errors the wrapped request function can raise: the two `Error`s the
source constructs, plus the two `fetch` rejections it lets through. -/
inductive FetchError
  | clientError (status : Nat)
  | serverError (status : Nat)
  | network
  | abort
  deriving DecidableEq, Repr

/-- `error.name` — `"AbortError"` only for an abort; a network failure is a
`TypeError`, the constructed errors are plain `Error`s. -/
def errorName : FetchError → String
  | FetchError.abort => "AbortError"
  | FetchError.network => "TypeError"
  | _ => "Error"

/-- `response.ok` per the Fetch specification: status in 200-299. -/
def responseOk (status : Nat) : Bool :=
  decide (200 ≤ status) && decide (status ≤ 299)

/-- The request closure passed to `backOff`: return the response when ok,
throw `Client error` on 4xx, `Server error` otherwise; a rejected `fetch`
propagates its own error. -/
def requestOnce : AttemptOutcome → Except FetchError Nat
  | AttemptOutcome.http status =>
      if responseOk status then Except.ok status
      else if decide (400 ≤ status) && decide (status < 500) then
        Except.error (FetchError.clientError status)
      else
        Except.error (FetchError.serverError status)
  | AttemptOutcome.networkError => Except.error FetchError.network
  | AttemptOutcome.abortError => Except.error FetchError.abort

/-- The `backOff` loop of the `exponential-backoff` library: run the request;
on failure increment the attempt number, consult the source's `retry`
callback (`false` for `AbortError` — no log; otherwise log the attempt
number and `true`), and rethrow when the callback refuses or the attempt
limit is reached.  Returns the final result, the number of attempts made,
and the attempt numbers the callback logged.  `remaining` is
`numOfAttempts - attemptNumber`; the `0` case is unreachable from
`fetchWithRetry`, which starts with `remaining = MAX_RETRIES = 3`. -/
def backOffGo (attempts : Nat → AttemptOutcome) :
    Nat → Nat → List Nat → Except FetchError Nat × Nat × List Nat
  | attemptNumber, 0, logged => (Except.error FetchError.network, attemptNumber, logged)
  | attemptNumber, remaining + 1, logged =>
      match requestOnce (attempts attemptNumber) with
      | Except.ok r => (Except.ok r, attemptNumber + 1, logged)
      | Except.error e =>
          if errorName e = "AbortError" then
            (Except.error e, attemptNumber + 1, logged)
          else
            let logged := logged ++ [attemptNumber + 1]
            if remaining = 0 then (Except.error e, attemptNumber + 1, logged)
            else backOffGo attempts (attemptNumber + 1) remaining logged

/-- `fetchWithRetry` from vehicles.ts: `backOff(request, { numOfAttempts:
SEARCH_CONFIG.MAX_RETRIES, ..., retry })`. -/
def fetchWithRetry (attempts : Nat → AttemptOutcome) :
    Except FetchError Nat × Nat × List Nat :=
  backOffGo attempts 0 MAX_RETRIES []

/-! ## Per-location scrape fetch and the pyp branch of `vehiclesRouter.search`
(vehicles.ts lines 123-236 and 577-643) -/

/-- The environment of one location's fetch: the location code, the outcome
of each AJAX fetch attempt, and the vehicles `parseVehicleInventoryHTML`
yields when the fetch succeeds. -/
structure LocEnv where
  locationCode : String
  attempts : Nat → AttemptOutcome
  parsedVehicles : List Vehicle

/-- `fetchVehicleInventoryInternal` (no cancellation signal): run
`fetchWithRetry`; on success parse the HTML, and in the surrounding
`catch` block log the error, delay, and return `[]`. -/
def fetchVehicleInventoryInternal (env : LocEnv) : List Vehicle :=
  match (fetchWithRetry env.attempts).1 with
  | Except.ok _ => env.parsedVehicles
  | Except.error _ => []

/-- The body of one `limit(async () => ...)` task of the pyp branch: the
`try` returns the fetched vehicles; the `catch` would record
`` `pyp-${location.locationCode}` ``.  `fetchVehicleInventory` never
throws (its own `catch` returns `[]`), so the task always resolves. -/
def perLocationTask (env : LocEnv) : Except String (List Vehicle) :=
  Except.ok (fetchVehicleInventoryInternal env)

/-- What `vehiclesRouter.search` returns (the fields the scenario reads). -/
structure SearchOutcome where
  vehicles : List Vehicle
  locationsWithErrors : List String
  locationsCovered : Int
  deriving DecidableEq, Repr

/-- The pyp branch of `vehiclesRouter.search` (run with
`sources = ["pyp"]`): `totalLocationsCovered += locations.length`, collect
every task's vehicles, record `pyp-<code>` for a task that rejected, and
return `locationsCovered = totalLocationsCovered - locationsWithErrors.length`. -/
def searchPyp (locations : List LocEnv) : SearchOutcome :=
  let totalLocationsCovered := locations.length
  let step := fun (acc : List Vehicle × List String) (env : LocEnv) =>
    match perLocationTask env with
    | Except.ok vs => (acc.1 ++ vs, acc.2)
    | Except.error _ => (acc.1, acc.2 ++ ["pyp-" ++ env.locationCode])
  let folded := locations.foldl step ([], [])
  { vehicles := folded.1,
    locationsWithErrors := folded.2,
    locationsCovered := (totalLocationsCovered : Int) - folded.2.length }

/-! ## Alert engine (`processSearch`, `sendNotifications`, `GET` of the cron
route, second revision of the file) -/

/-- The stored `lastVehicleIds` column after `JSON.parse` succeeded:
either it validates under `z.array(z.string())` or it does not. -/
inductive StoredIds
  | valid (ids : List String)
  | invalid
  deriving DecidableEq, Repr

/-- `previousVehicleIds`: `[]` when the column is null or fails validation. -/
def prevIdsOf : Option StoredIds → List String
  | none => []
  | some (StoredIds.valid ids) => ids
  | some StoredIds.invalid => []

/-- The dispatch environment: the search row's toggles, the user's Discord
state, and whether each outbound send call reports success. -/
structure DispatchEnv where
  emailAlertsEnabled : Bool
  discordAlertsEnabled : Bool
  discordId : Option String
  discordAppInstalled : Bool
  emailSendSucceeds : Bool
  discordSendSucceeds : Bool
  deriving DecidableEq, Repr

/-- `sendNotifications` from the cron route: each enabled channel is
attempted independently; a failed or ineligible channel contributes an
error string, never a throw.  (The payload only flows into the outbound
send calls, whose outcomes the environment supplies, so it is not a
parameter here.) -/
def sendNotifications (env : DispatchEnv) : Bool × Bool × List String :=
  let email :=
    if env.emailAlertsEnabled then
      if env.emailSendSucceeds then (true, ([] : List String))
      else (false, ["Email failed"])
    else (false, [])
  let discord :=
    if env.discordAlertsEnabled then
      match env.discordId with
      | none => (false, ["Discord alerts enabled but user has no Discord ID linked"])
      | some _ =>
          if !env.discordAppInstalled then
            (false, ["Discord alerts enabled but user has not installed the Discord app"])
          else if env.discordSendSucceeds then (true, ([] : List String))
          else (false, ["Discord failed"])
    else (false, [])
  (email.1, discord.1, email.2 ++ discord.2)

/-- The environment of one `processSearch` call: whether the stored filter
bag passes `filtersSchema`, the vehicles the re-run search produced after
the client-side `salvageYards` filter, the stored snapshot, and the
dispatch environment. -/
structure ProcessEnv where
  filtersValid : Bool
  filteredVehicles : List Vehicle
  lastVehicleIds : Option StoredIds
  dispatch : DispatchEnv

/-- `currentVehicleIds`. -/
def currentIdsOf (env : ProcessEnv) : List String :=
  env.filteredVehicles.map Vehicle.id

/-- `newVehicleIds = currentVehicleIds.filter((id) => !previousIdsSet.has(id))`. -/
def newIdsOf (env : ProcessEnv) : List String :=
  (currentIdsOf env).filter (fun i => !((prevIdsOf env.lastVehicleIds).contains i))

/-- `newVehicles = filteredVehicles.filter((v) => newVehicleIds.includes(v.id))`. -/
def newVehiclesOf (env : ProcessEnv) : List Vehicle :=
  env.filteredVehicles.filter (fun v => (newIdsOf env).contains v.id)

/-- What one `processSearch` call did: the `lastVehicleIds` value written
together with `lastCheckedAt` (`none` when no row update ran), the
vehicle list handed to `sendNotifications` (`none` when dispatch was not
reached), and the returned status string. -/
structure ProcessResult where
  snapshotWritten : Option (List String)
  notified : Option (List Vehicle)
  status : String
  deriving DecidableEq, Repr

/-- `processSearch` from the cron route. -/
def processSearch (env : ProcessEnv) : ProcessResult :=
  if !env.filtersValid then
    { snapshotWritten := none, notified := none, status := "invalid_filters" }
  else if (prevIdsOf env.lastVehicleIds).length = 0 then
    { snapshotWritten := some (currentIdsOf env), notified := none,
      status := "first_check_baseline_set" }
  else if (newVehiclesOf env).length = 0 then
    { snapshotWritten := some (currentIdsOf env), notified := none,
      status := "no_new_vehicles" }
  else
    let sent := sendNotifications env.dispatch
    let statusParts :=
      (if sent.1 then ["email_sent"] else []) ++
      (if sent.2.1 then ["discord_sent"] else []) ++
      (if sent.2.2.isEmpty then [] else
        ["errors: " ++ String.intercalate "; " sent.2.2])
    let statusParts :=
      if statusParts.isEmpty then ["no_notifications_sent"] else statusParts
    { snapshotWritten := some (currentIdsOf env),
      notified := some (newVehiclesOf env),
      status := String.intercalate ", " statusParts }

/-- The subscription re-check against the billing provider. -/
inductive SubscriptionCheck
  | active
  | expired
  | lookupFailed
  deriving DecidableEq, Repr

/-- The environment of one search's handler inside the cron `GET` batch
loop.  `processCrashes` models `processSearch` (or the search it runs)
throwing, which lands in the handler's `catch`. -/
structure PerSearchEnv where
  userEmail : Option String
  subscription : SubscriptionCheck
  process : ProcessEnv
  processCrashes : Bool

/-- The handler's externally visible effects: the `processingLock` value
after the handler finished, whether the alert toggles were force-cleared,
and what `processSearch` did (when it ran to completion). -/
structure PerSearchOutcome where
  finalLock : Option Int
  alertsDisabled : Bool
  snapshotWritten : Option (List String)
  notified : Option (List Vehicle)
  status : String

/-- One search's handler inside the cron `GET` batch loop: missing email,
lapsed subscription, normal completion and the `catch` path all release
the lock. -/
def handleSearch (env : PerSearchEnv) : PerSearchOutcome :=
  match env.userEmail with
  | none =>
      { finalLock := none, alertsDisabled := false, snapshotWritten := none,
        notified := none, status := "no_user_email" }
  | some _ =>
      match env.subscription with
      | SubscriptionCheck.expired =>
          { finalLock := none, alertsDisabled := true, snapshotWritten := none,
            notified := none, status := "subscription_expired_disabled" }
      | SubscriptionCheck.lookupFailed =>
          { finalLock := none, alertsDisabled := true, snapshotWritten := none,
            notified := none, status := "no_subscription_disabled" }
      | SubscriptionCheck.active =>
          if env.processCrashes then
            { finalLock := none, alertsDisabled := false, snapshotWritten := none,
              notified := none, status := "error" }
          else
            let r := processSearch env.process
            { finalLock := none, alertsDisabled := false,
              snapshotWritten := r.snapshotWritten, notified := r.notified,
              status := r.status }

/-! ## Sample data -/

/-- A vehicle template for concrete instances. -/
def baseVehicle : Vehicle :=
  { id := "pyp-1", vin := "", make := "HONDA", model := "CIVIC",
    color := "Black", year := 2005, availableDate := 0, source := Source.pyp,
    locName := "Yard A", locStateAbbr := "CA", locDistance := 10 }

def emptyVinA : Vehicle := { baseVehicle with id := "pyp-a" }

def emptyVinB : Vehicle := { baseVehicle with id := "pyp-b", color := "Blue" }

def sharedVinPyp : Vehicle :=
  { baseVehicle with id := "pyp-77", vin := "1HGCM82633A004352" }

def sharedVinRow52 : Vehicle :=
  { baseVehicle with
    id := "row52-901"
    vin := "1HGCM82633A004352"
    source := Source.row52 }

/-! ## Facts about the VIN map -/

theorem lookupVin_eq_none_iff (m : List (String × Vehicle)) (k : String) :
    lookupVin m k = none ↔ k ∉ m.map Prod.fst := by
  induction m with
  | nil => simp [lookupVin]
  | cons p rest ih =>
      obtain ⟨k', v⟩ := p
      by_cases h : k' = k
      · subst h
        simp [lookupVin]
      · simp [lookupVin, h, ih, Ne.symm h]

theorem setVin_map_fst (m : List (String × Vehicle)) (k : String) (v : Vehicle) :
    (setVin m k v).map Prod.fst =
      if k ∈ m.map Prod.fst then m.map Prod.fst else m.map Prod.fst ++ [k] := by
  induction m with
  | nil => simp [setVin]
  | cons p rest ih =>
      obtain ⟨k', w⟩ := p
      by_cases h : k' = k
      · subst h
        simp [setVin]
      · simp only [setVin, if_neg h, List.map_cons, ih, List.mem_cons]
        by_cases hk : k ∈ rest.map Prod.fst
        · simp [hk, Ne.symm h]
        · simp [hk, Ne.symm h]

theorem setVin_mem (m : List (String × Vehicle)) (k : String) (v : Vehicle) :
    ∀ p ∈ setVin m k v, p = (k, v) ∨ p ∈ m := by
  induction m with
  | nil =>
      intro p hp
      left
      simpa [setVin] using hp
  | cons q rest ih =>
      intro p hp
      obtain ⟨k', w⟩ := q
      by_cases h : k' = k
      · subst h
        have hp' : p = (k', v) ∨ p ∈ rest := by simpa [setVin] using hp
        rcases hp' with hp1 | hp1
        · left; exact hp1
        · right; simp [hp1]
      · have hp' : p = (k', w) ∨ p ∈ setVin rest k v := by
          simpa [setVin, h] using hp
        rcases hp' with hp1 | hp1
        · right; simp [hp1]
        · rcases ih p hp1 with hp2 | hp2
          · left; exact hp2
          · right; simp [hp2]

/-- The invariant the dedup loop keeps: the map's keys are distinct, and
every entry's value has the entry's key as its VIN. -/
def VinMapInv (m : List (String × Vehicle)) : Prop :=
  (m.map Prod.fst).Nodup ∧ ∀ p ∈ m, (Prod.snd p).vin = Prod.fst p

theorem setVin_inv (m : List (String × Vehicle)) (v : Vehicle)
    (h : VinMapInv m) : VinMapInv (setVin m v.vin v) := by
  obtain ⟨hnd, hsnd⟩ := h
  constructor
  · rw [setVin_map_fst]
    by_cases hk : v.vin ∈ m.map Prod.fst
    · simpa [hk] using hnd
    · simp only [hk, if_false]
      refine List.Nodup.append hnd (List.nodup_singleton _) ?_
      intro a ha hb
      simp only [List.mem_singleton] at hb
      subst hb
      exact hk ha
  · intro p hp
    rcases setVin_mem m v.vin v p hp with hp' | hp'
    · subst hp'; rfl
    · exact hsnd p hp'

theorem dedupStep_inv (m : List (String × Vehicle)) (v : Vehicle)
    (h : VinMapInv m) : VinMapInv (dedupStep m v) := by
  unfold dedupStep
  cases lookupVin m v.vin with
  | none => exact setVin_inv m v h
  | some existing =>
      by_cases hc : v.source = Source.pyp ∧ existing.source = Source.row52
      · simpa [hc] using setVin_inv m v h
      · simpa [hc] using h

theorem foldl_dedupStep_inv (l : List Vehicle) :
    ∀ m : List (String × Vehicle), VinMapInv m → VinMapInv (l.foldl dedupStep m) := by
  induction l with
  | nil => intro m h; simpa using h
  | cons v rest ih =>
      intro m h
      simpa using ih (dedupStep m v) (dedupStep_inv m v h)

/-- C1 (counterexample): two distinct vehicles with an empty VIN are merged
into one output entry by `deduplicateVehicles` — the claim says both must
appear in the output as distinct entries. -/
theorem dedup_empty_vin_merged_counterexample :
    deduplicateVehicles [emptyVinA, emptyVinB] = [emptyVinA] ∧ emptyVinA ≠ emptyVinB := by
  constructor
  · rfl
  · decide

/-- C1 (amended): `deduplicateVehicles` keys its map by the raw VIN string,
the empty VIN included, so every VIN — the empty VIN among them — appears
at most once in the output: all empty-VIN input vehicles collapse to a
single output entry rather than staying distinct. -/
theorem dedup_output_vins_nodup (vehicles : List Vehicle) :
    ((deduplicateVehicles vehicles).map Vehicle.vin).Nodup := by
  have hinv : VinMapInv (vehicles.foldl dedupStep []) :=
    foldl_dedupStep_inv vehicles [] ⟨List.nodup_nil, by simp⟩
  unfold deduplicateVehicles
  rw [List.map_map]
  have hmap : (vehicles.foldl dedupStep []).map (Vehicle.vin ∘ Prod.snd) =
      (vehicles.foldl dedupStep []).map Prod.fst := by
    apply List.map_congr_left
    intro p hp
    exact hinv.2 p hp
  rw [hmap]
  exact hinv.1

/-- C7: when one pyp vehicle and one row52 vehicle share a non-empty VIN,
`deduplicateVehicles` keeps exactly the pyp entry, whichever of the two
comes first in the input. -/
theorem dedup_pyp_wins_both_orders (p r : Vehicle)
    (hp : p.source = Source.pyp) (hr : r.source = Source.row52)
    (hvin : p.vin = r.vin) (hne : p.vin ≠ "") :
    deduplicateVehicles [p, r] = [p] ∧ deduplicateVehicles [r, p] = [p] := by
  constructor
  · simp [deduplicateVehicles, dedupStep, lookupVin, setVin, hvin, hp, hr]
  · simp [deduplicateVehicles, dedupStep, lookupVin, setVin, hvin, hp, hr]

/-- C7 (witness): the source-priority theorem at scenario 1's VIN. -/
theorem dedup_pyp_wins_both_orders_witness :
    deduplicateVehicles [sharedVinPyp, sharedVinRow52] = [sharedVinPyp] ∧
      deduplicateVehicles [sharedVinRow52, sharedVinPyp] = [sharedVinPyp] :=
  dedup_pyp_wins_both_orders sharedVinPyp sharedVinRow52 (by rfl) (by rfl) (by rfl)
    (by decide)

/-! ## Retry decision rule -/

/-- C2: the code violates the 4xx clause of the decision rule.  The request
closure does map a 4xx response to a `Client error`, but the `retry`
callback passed to `backOff` returns `false` only for `AbortError`, so the
client error is retried like any other failure: with every attempt
returning HTTP 404, `fetchWithRetry` makes all `MAX_RETRIES = 3` attempts
and logs each of them before raising — the claim (and the source's own
comment `If client error (4xx), don't retry`) require it to be raised
after attempt 1 with nothing retried.  The other two clauses do hold and
are recorded alongside: a 5xx is retried up to the ceiling, and an abort
firing on attempt 2 stops the loop at attempt 2 with no log entry for it. -/
theorem fetchWithRetry_4xx_is_retried :
    fetchWithRetry (fun _ => AttemptOutcome.http 404) =
      (Except.error (FetchError.clientError 404), 3, [1, 2, 3]) ∧
    fetchWithRetry (fun _ => AttemptOutcome.http 503) =
      (Except.error (FetchError.serverError 503), 3, [1, 2, 3]) ∧
    fetchWithRetry
        (fun n => if n = 1 then AttemptOutcome.abortError else AttemptOutcome.http 500) =
      (Except.error FetchError.abort, 2, [1]) :=
  ⟨rfl, rfl, rfl⟩

/-! ## OData filter injection -/

/-- A user query that closes the quoted literal and opens a clause of its
own. -/
def injectionQuery : String := "x') or contains(tolower(model/name),'y"

/-- C3: `buildVehicleFilter` embeds the trimmed, lowercased query into the
filter by raw template-literal interpolation with no escaping: a query
containing a single quote escapes the quoted literal, so the result for
`injectionQuery` carries two injected `contains` clauses — the claim says
the user-supplied substring is escaped so that no input can inject
additional filter clauses. -/
theorem buildVehicleFilter_injection :
    buildVehicleFilter injectionQuery =
      "isActive eq true and (contains(tolower(model/name),'x') or contains(tolower(model/name),'y') or contains(tolower(model/make/name),'x') or contains(tolower(model/name),'y'))" := by
  rfl

/-! ## Cookie-header reconstruction -/

/-- A `Set-Cookie` value whose date-valued attribute ends the header. -/
def setCookieTail : String :=
  "sessionId=abc123; Path=/; Expires=Wed, 21-Oct-25 07:28:00 GMT"

/-- The same date-valued attribute with a second cookie folded after it,
the layout `headers.get("set-cookie")` produces for multiple `Set-Cookie`
headers. -/
def setCookieMid : String :=
  "sessionId=abc123; Path=/; Expires=Wed, 21-Oct-25 07:28:00 GMT, userId=42; HttpOnly"

/-- C9: the split survives an embedded `Expires` comma only when the date
attribute ends the header.  When another cookie follows, the lookahead
`(?=\s*[^;=]+=[^;]+)` reaches through the rest of the date (`,` and space
are both in `[^;=]`) to the later `userId=42`, so the header IS split at
the comma inside `Expires=Wed, 21-Oct-25 07:28:00 GMT` and the date's
remainder enters the Cookie header as an extra pair — the claim requires
`"sessionId=abc123; userId=42"` there. -/
theorem extractCookies_expires_comma :
    extractCookies (some setCookieTail) = "sessionId=abc123" ∧
    extractCookies (some setCookieMid) =
      "sessionId=abc123; 21-Oct-25 07:28:00 GMT; userId=42" ∧
    extractCookies (some setCookieMid) ≠ "sessionId=abc123; userId=42" := by
  refine ⟨rfl, rfl, ?_⟩
  decide

/-! ## Color-filter canonicalization -/

/-- A vehicle whose color is the abbreviation `"BLK"`. -/
def vehicleColorBLK : Vehicle := { baseVehicle with color := "BLK" }

/-- A filter bag carrying only a colors list. -/
def colorsOnlyFilters (cs : List String) : SearchFilters :=
  { query := "", colors := some cs }

/-- C8 (counterexample): the filter side of the color comparison is only
lowercased, never canonicalized.  `"blk"` and `"Black"` map to the same
canonical key `"black"`, so under the claim the filter `["blk"]` must
match the vehicle colored `"Black"` — but `filterVehicles` drops the
vehicle, because it compares the canonicalized vehicle color `"black"`
against the merely lowercased filter entry `"blk"`. -/
theorem color_filter_one_sided_counterexample :
    normalizeColor "blk" = some "black" ∧ normalizeColor "Black" = some "black" ∧
      filterVehicles [baseVehicle] (colorsOnlyFilters ["blk"]) = [] := by
  refine ⟨rfl, rfl, rfl⟩

/-- C8 (amended): only the vehicle's color passes through the
canonicalization table; the filter colors are merely lowercased.  A
vehicle is kept by a colors-only filter exactly when its canonicalized
color appears among the lowercased filter entries — so `"BLK"` on the
vehicle side matches the filter `"black"`, but a filter abbreviation such
as `"blk"` matches no vehicle whose color canonicalizes to `"black"`. -/
theorem filterVehicles_color_semantics (v : Vehicle) (cs : List String)
    (h : cs ≠ []) :
    filterVehicles [v] (colorsOnlyFilters cs) =
      (match normalizeColor v.color with
       | none => []
       | some vehicleColor =>
           if (cs.map toLowerStr).contains vehicleColor then [v] else []) := by
  have hcs : cs.isEmpty = false := by
    cases cs with
    | nil => exact absurd rfl h
    | cons a t => rfl
  cases hnc : normalizeColor v.color with
  | none =>
      have hkv : keepVehicle (colorsOnlyFilters cs) v = false := by
        simp only [keepVehicle, colorsOnlyFilters, hnc]
        simp [hcs]
      simp [filterVehicles, hkv]
  | some k =>
      by_cases hk : (cs.map toLowerStr).contains k = true
      · simp at hk
        have hkv : keepVehicle (colorsOnlyFilters cs) v = true := by
          simp only [keepVehicle, colorsOnlyFilters, hnc]
          simp [hcs]
          exact hk
        simp [filterVehicles, hkv, hk]
      · simp at hk
        have hkv : keepVehicle (colorsOnlyFilters cs) v = false := by
          simp only [keepVehicle, colorsOnlyFilters, hnc]
          simp [hcs]
          exact hk
        simp [filterVehicles, hkv, hk]
        exact hk

/-- C8 (witness): the abbreviation on the vehicle side matches the
canonical key in the filter. -/
theorem filterVehicles_color_semantics_witness :
    filterVehicles [vehicleColorBLK] (colorsOnlyFilters ["black"]) = [vehicleColorBLK] := by
  rw [filterVehicles_color_semantics vehicleColorBLK ["black"] (by decide)]
  rfl

/-! ## Per-location failure accounting -/

def locA : LocEnv :=
  { locationCode := "0063", attempts := fun _ => AttemptOutcome.http 200,
    parsedVehicles := [{ baseVehicle with id := "pyp-a1" }] }

/-- A location whose AJAX fetch fails at the network level on every
attempt (a timeout), exhausting the retry budget. -/
def locB : LocEnv :=
  { locationCode := "0076", attempts := fun _ => AttemptOutcome.networkError,
    parsedVehicles := [{ baseVehicle with id := "pyp-b1" }] }

def locC : LocEnv :=
  { locationCode := "0091", attempts := fun _ => AttemptOutcome.http 200,
    parsedVehicles := [{ baseVehicle with id := "pyp-c1" }] }

/-- C4 (counterexample): with three locations of which the middle one
times out after exhausting retries, the search does NOT report
`locationsCovered = 2` and `locationsWithErrors = ["pyp-0076"]` — the
failure is swallowed inside `fetchVehicleInventoryInternal`'s own `catch`
(which returns `[]`), so the per-location error push in the search body
never runs. -/
theorem search_timeout_accounting_counterexample :
    ¬ ((searchPyp [locA, locB, locC]).locationsCovered = 2 ∧
        (searchPyp [locA, locB, locC]).locationsWithErrors = ["pyp-0076"]) := by
  decide

/-- C4 (amended): when one of three locations' fetch fails after its
retries while the other two succeed, the failing location contributes an
empty vehicle list and no error record: the result still carries the two
good locations' vehicles, but `locationsWithErrors` stays empty and
`locationsCovered` remains 3. -/
theorem searchPyp_swallows_fetch_failure (a b c : LocEnv) (e : FetchError)
    (hb : (fetchWithRetry b.attempts).1 = Except.error e)
    (ha : ∃ r, (fetchWithRetry a.attempts).1 = Except.ok r)
    (hc : ∃ r, (fetchWithRetry c.attempts).1 = Except.ok r) :
    searchPyp [a, b, c] =
      { vehicles := a.parsedVehicles ++ c.parsedVehicles,
        locationsWithErrors := [],
        locationsCovered := 3 } := by
  obtain ⟨ra, ha⟩ := ha
  obtain ⟨rc, hc⟩ := hc
  simp [searchPyp, perLocationTask, fetchVehicleInventoryInternal, hb, ha, hc]

/-- C4 (witness): the amended statement at the three concrete locations,
`locB` being the one that times out on every attempt. -/
theorem searchPyp_swallows_fetch_failure_witness :
    searchPyp [locA, locB, locC] =
      { vehicles := locA.parsedVehicles ++ locC.parsedVehicles,
        locationsWithErrors := [],
        locationsCovered := 3 } :=
  searchPyp_swallows_fetch_failure locA locB locC FetchError.network (by rfl)
    ⟨200, by rfl⟩ ⟨200, by rfl⟩

/-! ## Alert-engine diff -/

theorem map_filter_comp {α β : Type} (f : α → β) (p : β → Bool) (l : List α) :
    (l.filter (fun a => p (f a))).map f = (l.map f).filter p := by
  induction l with
  | nil => rfl
  | cons a t ih => by_cases h : p (f a) <;> simp [List.filter_cons, h, ih]

/-- The ids of the notified vehicles are exactly the new-ID list: the
`newVehicles` filter keeps precisely the vehicles whose id is outside the
previous snapshot. -/
theorem newVehiclesOf_map_id (env : ProcessEnv) :
    (newVehiclesOf env).map Vehicle.id = newIdsOf env := by
  unfold newVehiclesOf
  have hcong : env.filteredVehicles.filter (fun v => (newIdsOf env).contains v.id)
      = env.filteredVehicles.filter
          (fun v => !((prevIdsOf env.lastVehicleIds).contains v.id)) := by
    apply List.filter_congr
    intro v hv
    have hvmem : v.id ∈ env.filteredVehicles.map Vehicle.id :=
      List.mem_map_of_mem Vehicle.id hv
    rw [Bool.eq_iff_iff]
    simp [newIdsOf, currentIdsOf, List.mem_filter, hvmem]
  rw [hcong]
  unfold newIdsOf currentIdsOf
  exact map_filter_comp Vehicle.id
    (fun i => !((prevIdsOf env.lastVehicleIds).contains i)) env.filteredVehicles

/-- C5: the diff rule of `processSearch`.  With a valid filter bag: when
the previous-ID list is empty (first run, including a null or invalid
snapshot), nothing is notified and the current IDs are stored as the new
baseline; otherwise the snapshot is always replaced by the current IDs,
the notified payload's ids are exactly `C − P`, and when `C − P` is empty
no notification is sent. -/
theorem processSearch_diff_rule (env : ProcessEnv) (hval : env.filtersValid = true) :
    (prevIdsOf env.lastVehicleIds = [] →
        (processSearch env).notified = none ∧
        (processSearch env).snapshotWritten = some (currentIdsOf env)) ∧
    (prevIdsOf env.lastVehicleIds ≠ [] →
        (processSearch env).snapshotWritten = some (currentIdsOf env) ∧
        ((processSearch env).notified.getD []).map Vehicle.id = newIdsOf env ∧
        (newIdsOf env = [] → (processSearch env).notified = none)) := by
  constructor
  · intro hP
    have hlen : (prevIdsOf env.lastVehicleIds).length = 0 := by simp [hP]
    simp [processSearch, hval, hlen]
  · intro hP
    have hlen : ¬((prevIdsOf env.lastVehicleIds).length = 0) := by
      simpa [List.length_eq_zero] using hP
    by_cases hnew : (newVehiclesOf env).length = 0
    · have hnv : newVehiclesOf env = [] := List.length_eq_zero.mp hnew
      have hni : newIdsOf env = [] := by
        rw [← newVehiclesOf_map_id env, hnv]
        rfl
      simp [processSearch, hval, hlen, hnew, hni]
    · refine ⟨?_, ?_, ?_⟩
      · simp [processSearch, hval, hlen, hnew]
      · simp only [processSearch, hval, Bool.not_true, Bool.false_eq_true,
          if_false, if_neg hlen, if_neg hnew]
        simpa using newVehiclesOf_map_id env
      · intro hni
        exfalso
        apply hnew
        have : (newVehiclesOf env).map Vehicle.id = [] := by
          rw [newVehiclesOf_map_id env, hni]
        simpa using congrArg List.length this


/-- A dispatch environment in which both channels are enabled and both
outbound sends report failure. -/
def dispatchBothFail : DispatchEnv :=
  { emailAlertsEnabled := true, discordAlertsEnabled := true,
    discordId := some "discord-1", discordAppInstalled := true,
    emailSendSucceeds := false, discordSendSucceeds := false }

/-- Second-cycle environment: previous snapshot `["pyp-a"]`, current
vehicles `pyp-a` and `pyp-b`. -/
def envSecondRun : ProcessEnv :=
  { filtersValid := true, filteredVehicles := [emptyVinA, emptyVinB],
    lastVehicleIds := some (StoredIds.valid ["pyp-a"]),
    dispatch := dispatchBothFail }

/-- C5 (witness): the diff rule at a concrete second cycle — the snapshot
becomes the two current IDs and the notified payload is exactly the one
new vehicle. -/
theorem processSearch_diff_rule_witness :
    (processSearch envSecondRun).snapshotWritten = some ["pyp-a", "pyp-b"] ∧
    ((processSearch envSecondRun).notified.getD []).map Vehicle.id = ["pyp-b"] := by
  have h := (processSearch_diff_rule envSecondRun rfl).2 (by decide)
  refine ⟨h.1, ?_⟩
  rw [h.2.1]
  decide

/-- A stored snapshot that parses as JSON but fails `z.array(z.string())`. -/
def envCorruptSnapshot : ProcessEnv :=
  { filtersValid := true, filteredVehicles := [emptyVinA],
    lastVehicleIds := some StoredIds.invalid,
    dispatch := dispatchBothFail }

/-- C10: a non-null stored snapshot that fails validation is silently
treated as an empty previous set: `processSearch` behaves exactly as with
a null snapshot — it overwrites the snapshot with the current IDs, sends
nothing, and reports the ordinary first-run status rather than an error. -/
theorem processSearch_invalid_snapshot_baseline (env : ProcessEnv)
    (hval : env.filtersValid = true)
    (hbad : env.lastVehicleIds = some StoredIds.invalid) :
    processSearch env = processSearch { env with lastVehicleIds := none } ∧
    (processSearch env).snapshotWritten = some (currentIdsOf env) ∧
    (processSearch env).notified = none ∧
    (processSearch env).status = "first_check_baseline_set" := by
  refine ⟨?_, ?_, ?_, ?_⟩ <;>
    simp [processSearch, hval, hbad, prevIdsOf, currentIdsOf]

/-- C10 (witness): the baseline behaviour at a concrete corrupt snapshot. -/
theorem processSearch_invalid_snapshot_baseline_witness :
    processSearch envCorruptSnapshot =
      processSearch { envCorruptSnapshot with lastVehicleIds := none } ∧
    (processSearch envCorruptSnapshot).snapshotWritten = some ["pyp-a"] ∧
    (processSearch envCorruptSnapshot).notified = none ∧
    (processSearch envCorruptSnapshot).status = "first_check_baseline_set" :=
  processSearch_invalid_snapshot_baseline envCorruptSnapshot rfl rfl

/-! ## Snapshot persistence and lock release around dispatch -/

/-- C6: a run that reaches the dispatch step (valid filters, an active
subscription, a known email, a non-empty previous snapshot and at least
one new vehicle) persists the current IDs as the new snapshot and ends
with the processing lock released, for every dispatch outcome — both
sends failing included; and a following cycle that reads back that
snapshot over the same search results notifies nothing, so delivery
failure alone never re-alerts the same vehicles. -/
theorem handleSearch_dispatch_failure_safe (env : PerSearchEnv) (e : String)
    (he : env.userEmail = some e)
    (hs : env.subscription = SubscriptionCheck.active)
    (hc : env.processCrashes = false)
    (hv : env.process.filtersValid = true)
    (hp : prevIdsOf env.process.lastVehicleIds ≠ [])
    (hn : newVehiclesOf env.process ≠ []) :
    (handleSearch env).finalLock = none ∧
    (handleSearch env).snapshotWritten = some (currentIdsOf env.process) ∧
    (handleSearch env).notified = some (newVehiclesOf env.process) ∧
    (processSearch { env.process with
        lastVehicleIds :=
          some (StoredIds.valid (currentIdsOf env.process)) }).notified = none := by
  have hlen : ¬((prevIdsOf env.process.lastVehicleIds).length = 0) := by
    simpa [List.length_eq_zero] using hp
  have hnew : ¬((newVehiclesOf env.process).length = 0) := by
    simpa [List.length_eq_zero] using hn
  have hrun : handleSearch env =
      { finalLock := none, alertsDisabled := false,
        snapshotWritten := (processSearch env.process).snapshotWritten,
        notified := (processSearch env.process).notified,
        status := (processSearch env.process).status } := by
    rw [handleSearch, he]
    simp [hs, hc]
  refine ⟨by rw [hrun], ?_, ?_, ?_⟩
  · rw [hrun]
    simp [processSearch, hv, hlen, hnew]
  · rw [hrun]
    simp [processSearch, hv, hlen, hnew]
  · set env' : ProcessEnv :=
      { env.process with
        lastVehicleIds := some (StoredIds.valid (currentIdsOf env.process)) } with henv
    have hni : newIdsOf env' = [] := by
      unfold newIdsOf
      apply List.filter_eq_nil_iff.mpr
      intro a ha
      have hmem : a ∈ prevIdsOf env'.lastVehicleIds := by
        simpa [henv, prevIdsOf, currentIdsOf] using ha
      simp only [Bool.not_eq_true]
      simpa using hmem
    have hnv : newVehiclesOf env' = [] := by
      unfold newVehiclesOf
      apply List.filter_eq_nil_iff.mpr
      intro v _
      rw [hni]
      simp
    by_cases hlen' : (prevIdsOf env'.lastVehicleIds).length = 0
    · simp [processSearch, hv, hlen']
    · simp [processSearch, hv, hlen',
        show (newVehiclesOf env').length = 0 by rw [hnv]; rfl]

/-- C6 (witness): the concrete second cycle `envSecondRun` with both
channels failing, wrapped in the batch handler. -/
theorem handleSearch_dispatch_failure_safe_witness :
    (handleSearch
        { userEmail := some "user@example.com",
          subscription := SubscriptionCheck.active,
          process := envSecondRun, processCrashes := false }).finalLock = none ∧
    (handleSearch
        { userEmail := some "user@example.com",
          subscription := SubscriptionCheck.active,
          process := envSecondRun, processCrashes := false }).snapshotWritten =
      some (currentIdsOf envSecondRun) ∧
    (handleSearch
        { userEmail := some "user@example.com",
          subscription := SubscriptionCheck.active,
          process := envSecondRun, processCrashes := false }).notified =
      some (newVehiclesOf envSecondRun) ∧
    (processSearch { envSecondRun with
        lastVehicleIds :=
          some (StoredIds.valid (currentIdsOf envSecondRun)) }).notified = none :=
  handleSearch_dispatch_failure_safe
    { userEmail := some "user@example.com",
      subscription := SubscriptionCheck.active,
      process := envSecondRun, processCrashes := false }
    "user@example.com" rfl rfl rfl rfl (by decide) (by decide)

end Pyp
